import Mathlib

/-!
# NewsHub backend — verification of the video lifecycle and settlement pipeline

Shallow embedding of the decision logic of the NewsHub marketplace backend
(`src/backend`): the royalty calculator (`utils/payments.py`), the moderation
gate (`utils/moderation.py`), the admin verification transition
(`routes/admin.py`), the purchase / license flow (`routes/buyer.py`,
`utils/payments.py`) and the public feed ranking (`routes/feed.py`).

Python floats and `Decimal` values are modelled as rationals (`ℚ`), timestamps
as integer seconds (`ℤ`) or rationals where the source subtracts float
timestamps, and the persistence layer (the `db.*` calls, which the spec treats
as an external storage collaborator) as explicit values threaded through the
functions.  Fallible handlers return explicit response types mirroring the
`jsonify` dictionaries of the source.
-/

namespace NewsHub

/-! ## Royalty calculator — `src/backend/utils/payments.py`

`NewsHubPayments.ROYALTY_SPLIT` and `calculate_royalty_split` (lines 35–38 and
87–98).  `Decimal.quantize(Decimal('0.01'))` uses the `decimal` module's
default rounding mode `ROUND_HALF_EVEN`, embedded here as `roundHalfEven`. -/

def ROYALTY_SPLIT_uploader : ℚ := 60 / 100

def ROYALTY_SPLIT_platform : ℚ := 40 / 100

/-- Round a rational to the nearest integer, ties going to the even integer.
This is `ROUND_HALF_EVEN`, the default rounding of Python's `decimal`
module used by `Decimal.quantize`. -/
def roundHalfEven (x : ℚ) : ℤ :=
  if x - ⌊x⌋ < 1 / 2 then ⌊x⌋
  else if 1 / 2 < x - ⌊x⌋ then ⌊x⌋ + 1
  else if ⌊x⌋ % 2 = 0 then ⌊x⌋ else ⌊x⌋ + 1

/-- `Decimal.quantize(Decimal('0.01'))`: round to two decimal places,
ties to even. -/
def quantize2 (x : ℚ) : ℚ := (roundHalfEven (100 * x) : ℚ) / 100

/-- The dictionary returned by `calculate_royalty_split`. -/
structure RoyaltySplit where
  total : ℚ
  uploader_share : ℚ
  platform_share : ℚ
  currency : String
deriving DecidableEq

/-- `NewsHubPayments.calculate_royalty_split` (payments.py lines 87–98):
`total * 0.60` and `total * 0.40`, each quantized to two decimal places.
The source performs no validation of `total_amount`. -/
def calculate_royalty_split (total_amount : ℚ) : RoyaltySplit where
  total := total_amount
  uploader_share := quantize2 (total_amount * ROYALTY_SPLIT_uploader)
  platform_share := quantize2 (total_amount * ROYALTY_SPLIT_platform)
  currency := "INR"

/-! ## Moderation gate — `src/backend/utils/moderation.py`

`NewsHubModerator.analyze_video` (lines 91–144) and `get_rejection_reason`
(lines 146–154).  Frame extraction and the NudeNet classifier are external
collaborators; a `Frame` carries what the classifier reports for one extracted
frame: the per-frame unsafe score appended to `nudity_scores` and the
object-level detections extended onto `all_exposed_parts`. -/

/-- One object-level detection as returned by the classifier.  The source reads
only `part.get('score', 0)`; the `explicitPart` flag is the spec's
"tagged as an explicit body-part category" tag, carried here so that the
spec's claimed policy can be stated — `analyze_video` never consults it. -/
structure Detection where
  label : String
  explicitPart : Bool
  score : ℚ
deriving DecidableEq

/-- Classifier output for one extracted frame. -/
structure Frame where
  score : ℚ
  parts : List Detection
deriving DecidableEq

/-- The two dictionary shapes `analyze_video` returns: the early returns
(missing file / no frames, carrying only `approved` and `reason`) and the
full aggregate report of lines 131–141. -/
inductive ModerationResult where
  | failed (approved : Bool) (reason : String)
  | report (approved : Bool) (max_nudity_score avg_nudity_score : ℚ)
      (total_frames : ℕ) (nudity_detected explicit_parts_detected : Bool)
      (reason : String)
deriving DecidableEq

/-- The `approved` entry of either result dictionary. -/
def ModerationResult.approvedFlag : ModerationResult → Bool
  | .failed a _ => a
  | .report a _ _ _ _ _ _ => a

/-- The `reason` entry of either result dictionary. -/
def ModerationResult.reasonText : ModerationResult → String
  | .failed _ r => r
  | .report _ _ _ _ _ _ r => r

/-- `max(nudity_scores) if nudity_scores else 0` — Python's `max` on a
non-empty list, with the source's `else 0` guard for the empty case. -/
def listMax : List ℚ → ℚ
  | [] => 0
  | x :: xs => xs.foldl max x

/-- `NewsHubModerator.get_rejection_reason` (moderation.py lines 146–154). -/
def get_rejection_reason (is_nude has_explicit_parts : Bool) : String :=
  if is_nude && has_explicit_parts then "Graphic nudity + explicit parts detected"
  else if is_nude then "High nudity probability detected"
  else if has_explicit_parts then "Explicit body parts detected"
  else "Content approved - safe for NewsHub"

/-- Default `self.nudity_threshold` (moderation.py line 33). -/
def nudity_threshold : ℚ := 6 / 10

/-- `NewsHubModerator.analyze_video` (moderation.py lines 91–144), from the
"Extract frames" step on; the existence check on the video file and the
classifier invocations are external I/O.  `nudity_scores` is the list of
per-frame scores, `all_exposed_parts` the concatenation of all per-frame
detection lists, exactly as the loop of lines 107–118 accumulates them. -/
def analyze_video (threshold : ℚ) (frames : List Frame) : ModerationResult :=
  if frames.isEmpty then .failed false "No frames extracted"
  else
    let nudity_scores := frames.map Frame.score
    let all_exposed_parts := frames.flatMap Frame.parts
    let max_nudity := listMax nudity_scores
    let avg_nudity := nudity_scores.sum / nudity_scores.length
    let is_nude : Bool := if max_nudity > threshold then true else false
    let has_explicit_parts : Bool :=
      all_exposed_parts.any fun part => if part.score > 7 / 10 then true else false
    .report (!(is_nude || has_explicit_parts)) max_nudity avg_nudity
      frames.length is_nude has_explicit_parts
      (get_rejection_reason is_nude has_explicit_parts)

/-! ## Video lifecycle — `src/backend/routes/admin.py`

`verify_video` (lines 96–150) and `reject_video` (lines 152–177).  The
persistence layer (`db.get_video_by_id`, `db.admin_verify_video`) is called in
`admin.py` but not defined anywhere under `src/`; the spec treats persisted
Video records as owned by an external storage collaborator, so the store is
modelled as an explicit list of Video records threaded through the handler. -/

inductive VideoStatus where
  | PENDING
  | APPROVED
  | REJECTED
  | SOLD
deriving DecidableEq

/-- A persisted Video record, with the fields the admin and buyer routes
read or write. -/
structure Video where
  id : String
  uploader_id : String
  title : String
  price : ℚ
  status : VideoStatus
  rating : Option ℤ
  categories : List String
deriving DecidableEq

/-- Modelled from the spec: `db.get_video_by_id`, called in
`src/backend/routes/admin.py` line 110 but not defined under `src/` — "Video,
Purchase, PublicPost records — storage medium unspecified (external
collaborator)".  Looks the video up by id in the persisted store. -/
def get_video_by_id (store : List Video) (video_id : String) : Option Video :=
  store.find? fun v => v.id = video_id

/-- Modelled from the spec: `db.admin_verify_video`, called in
`src/backend/routes/admin.py` lines 124–129 but not defined under `src/`.
Per §3/§4.3 it writes exactly the fields the call passes: the admin's rating,
the category tags, and the new status encoded by the `approved` flag
(`APPROVED` when true, `REJECTED` when false). -/
def admin_verify_video (store : List Video) (video_id : String) (rating : ℤ)
    (categories : List String) (approved : Bool) : List Video :=
  store.map fun v =>
    if v.id = video_id then
      { v with
        status := if approved then .APPROVED else .REJECTED
        rating := some rating
        categories := categories }
    else v

/-- Responses of the `verify_video` handler: the `jsonify({"error": ...})`
branches and the success payload of lines 137–146 (restricted to the fields
derived from the transition). -/
inductive VerifyResponse where
  | error (msg : String)
  | ok (video_id : String) (new_status : VideoStatus) (rating : ℤ)
deriving DecidableEq

/-- `verify_video` (admin.py lines 96–150): rating bounds check, lookup,
idempotency guard on `PENDING`, then the decision
`approved and rating >= 3 → APPROVED, else REJECTED`, persisted via
`db.admin_verify_video(..., approved=(new_status == VideoStatus.APPROVED))`.
Returns the (possibly updated) store and the response. -/
def verify_video (store : List Video) (video_id : String) (rating : ℤ)
    (approved : Bool) (categories : List String) : List Video × VerifyResponse :=
  if rating < 1 ∨ rating > 5 then (store, .error "Rating must be 1-5")
  else
    match get_video_by_id store video_id with
    | none => (store, .error "Video not found")
    | some video =>
      if video.status ≠ VideoStatus.PENDING then (store, .error "Video already processed")
      else
        let new_status := if approved ∧ rating ≥ 3 then VideoStatus.APPROVED
          else VideoStatus.REJECTED
        (admin_verify_video store video_id rating categories
          (new_status = VideoStatus.APPROVED),
         .ok video_id new_status rating)

/-- `reject_video` (admin.py lines 152–177).  The handler builds the reasons
table, then executes `verify_video(video_id, {...})` — but the module-level
`verify_video` (the `admin_required` wrapper around a one-parameter handler)
accepts a single positional argument, so Python raises `TypeError`, the
`except` clause catches it, and the route answers
`jsonify({"error": "Reject failed"}), 500` having touched no video record.
The embedding returns that observable outcome. -/
def reject_video (store : List Video) (_video_id : String) (_reason : String) :
    List Video × VerifyResponse :=
  (store, .error "Reject failed")

/-! ## Purchase and license — `src/backend/routes/buyer.py`,
`src/backend/utils/payments.py`

`buy_video` (buyer.py lines 83–118), `process_payment_webhook`
(payments.py lines 100–141) and `download_license` (buyer.py lines 155–183).
Times are integer seconds; `timedelta(days=90)` is `90 * 86400` seconds. -/

/-- Responses of the `buy_video` handler. -/
inductive BuyResponse where
  | error (msg : String)
  | ok (checkout_price : ℚ)
deriving DecidableEq

/-- `buy_video` (buyer.py lines 83–118).  The video lookup is the persistence
collaborator, passed in as `video?`.  After the availability check the handler
runs `create_video_checkout(video_id=..., buyer_email=..., price_tier="premium")`
— but `utils.payments.create_video_checkout` accepts only
`(video_id, buyer_email)`, so Python raises `TypeError` on the unexpected
keyword `price_tier`; the `except` clause answers
`jsonify({"error": "Payment initiation failed"}), 500`.  No state is touched
on any path. -/
def buy_video (video? : Option Video) (buyer_email : Option String) : BuyResponse :=
  match buyer_email with
  | none => .error "Buyer email required"
  | some _ =>
    match video? with
    | none => .error "Video not available for purchase"
    | some video =>
      if video.status ≠ VideoStatus.APPROVED then .error "Video not available for purchase"
      else .error "Payment initiation failed"

/-- The `checkout.session.completed` session object fields the webhook reads:
`metadata.video_id`, `customer_email`, `amount_total` (paise). -/
structure WebhookSession where
  video_id : String
  customer_email : String
  amount_total : ℤ
deriving DecidableEq

/-- A Stripe webhook event after signature verification (the verification
itself is the payment processor collaborator). -/
inductive WebhookEvent where
  | completed (s : WebhookSession)
  | other (event_type : String)
deriving DecidableEq

/-- The `result` dictionary built by `process_payment_webhook` on a completed
checkout (payments.py lines 123–136). -/
structure PaymentResult where
  status : String
  video_id : String
  buyer_email : String
  amount_inr : ℚ
  royalties : RoyaltySplit
  license_expiry : ℤ
deriving DecidableEq

/-- Webhook responses: the confirmation dictionary or the
`{"status": "ignored", ...}` fallthrough. -/
inductive WebhookResponse where
  | confirmed (r : PaymentResult)
  | ignored (event_type : String)
deriving DecidableEq

/-- `NewsHubPayments.process_payment_webhook` (payments.py lines 100–141) for a
signature-verified event, at processing time `now` (seconds):
converts `amount_total` from paise, computes the royalty split, and stamps
`license_expiry = datetime.now() + timedelta(days=90)`.  No video or price is
consulted. -/
def process_payment_webhook (now : ℤ) (event : WebhookEvent) : WebhookResponse :=
  match event with
  | .completed s =>
    let amount : ℚ := (s.amount_total : ℚ) / 100
    .confirmed
      { status := "payment_confirmed"
        video_id := s.video_id
        buyer_email := s.customer_email
        amount_inr := amount
        royalties := calculate_royalty_split amount
        license_expiry := now + 90 * 86400 }
  | .other t => .ignored t

/-- A persisted Purchase record as read by `download_license`
(`get_purchase_by_id` fields: id, buyer_id, buyer_email, expiry_date). -/
structure Purchase where
  id : String
  buyer_id : String
  buyer_email : String
  expiry_date : ℤ
deriving DecidableEq

/-- Responses of the `download_license` handler. -/
inductive DownloadResponse where
  | error (msg : String)
  | ok (download_url : String)
deriving DecidableEq

/-- `download_license` (buyer.py lines 155–183): ownership check first
(`403 Unauthorized` when the purchase is missing or owned by someone else),
then the strict expiry comparison `datetime.now(expiry.tzinfo) > expiry`
(`403 License expired`), else the signed URL.  Instants are absolute seconds,
which is the timezone-aware comparison of the source. -/
def download_license (purchase? : Option Purchase) (buyer_id : String) (now : ℤ) :
    DownloadResponse :=
  match purchase? with
  | none => .error "Unauthorized"
  | some purchase =>
    if purchase.buyer_id ≠ buyer_id then .error "Unauthorized"
    else if now > purchase.expiry_date then .error "License expired"
    else .ok ("https://s3.newshub.in/licenses/" ++ purchase.id ++ "?token=" ++
      purchase.id ++ "&expires=90days")

/-! ## Public feed — `src/backend/routes/feed.py`

The trending sort of `public_feed` (lines 68–78) and `record_view`
(lines 122–146).  Timestamps are rationals (the source subtracts float POSIX
timestamps). -/

/-- A public feed post, with the fields the trending sort and the view counter
read or write. -/
structure PublicPost where
  id : String
  title : String
  views : ℕ
  likes : ℕ
  ad_revenue : ℚ
  created_at : ℚ
deriving DecidableEq

/-- The recency term of the source's score,
`(1 / (now - created_at) + 1)` — note the parenthesisation: the source divides
by the bare age and then adds 1, it does not divide by `age + 1`. -/
def recencyFactor (age : ℚ) : ℚ := 1 / age + 1

/-- The sort key of `public_feed` (feed.py lines 71–76):
`views * 0.6 + likes * 0.3 + (1 / (now - created) + 1) * 0.1`. -/
def trendingScore (now : ℚ) (p : PublicPost) : ℚ :=
  (p.views : ℚ) * (6 / 10) + (p.likes : ℚ) * (3 / 10) +
    recencyFactor (now - p.created_at) * (1 / 10)

/-- Modelled from the spec (for comparison only): the claimed score with
`recencyFactor = 1 / (age_in_seconds + 1)` — §4.5 "Score = views × 0.6 +
likes × 0.3 + recencyFactor × 0.1, where recencyFactor = 1 / (age_in_seconds
+ 1)".  This is *not* what the source computes. -/
def specTrendingScore (now : ℚ) (p : PublicPost) : ℚ :=
  (p.views : ℚ) * (6 / 10) + (p.likes : ℚ) * (3 / 10) +
    (1 / ((now - p.created_at) + 1)) * (1 / 10)

/-- `sorted(SAMPLE_POSTS, key=score, reverse=True)` (feed.py lines 69–78):
a stable descending sort by the trending score.  Python's `sorted` is a stable
sort; any stable sort by the same key is extensionally the same function, so
it is embedded as insertion sort with the relation
"score of the left is at least the score of the right". -/
def rank (now : ℚ) (posts : List PublicPost) : List PublicPost :=
  posts.insertionSort fun a b => trendingScore now b ≤ trendingScore now a

/-- Modelled from the spec (for comparison only): the same stable sort driven
by the spec's claimed score. -/
def specRank (now : ℚ) (posts : List PublicPost) : List PublicPost :=
  posts.insertionSort fun a b => specTrendingScore now b ≤ specTrendingScore now a

/-- The response of `record_view` (feed.py lines 138–143). -/
structure ViewResponse where
  success : Bool
  post_id : String
  new_views : ℕ
  ad_impressions : ℕ
deriving DecidableEq

/-- `post['views'] += 1` applied to the first matching post — the in-place
mutation of the object found by `next((p for p in SAMPLE_POSTS if p['id'] ==
post_id), None)`. -/
def bumpFirstView : List PublicPost → String → List PublicPost
  | [], _ => []
  | p :: ps, post_id =>
    if p.id = post_id then { p with views := p.views + 1 } :: ps
    else p :: bumpFirstView ps post_id

/-- `record_view` (feed.py lines 122–146): find the post, increment its view
counter in place if present, and answer success with
`new_views = post['views'] if post else 0` and one ad impression. -/
def record_view (posts : List PublicPost) (post_id : String) :
    List PublicPost × ViewResponse :=
  match posts.find? (fun p => p.id = post_id) with
  | none => (posts, ⟨true, post_id, 0, 1⟩)
  | some p =>
    (bumpFirstView posts post_id, ⟨true, post_id, p.views + 1, 1⟩)

/-! ## Concrete sample records (from the mock data of the routes) -/

/-- A pending video record (the shape of `pending_videos` entry `video-001`
in admin.py lines 52–65). -/
def samplePendingVideo : Video :=
  ⟨"video-001", "uploader-001", "Bengaluru MG Road Protest Raw Footage",
    15000, .PENDING, none, []⟩

/-- An already-approved video record (the shape of the `get_video_by_id` mock
in buyer.py lines 227–236). -/
def sampleApprovedVideo : Video :=
  ⟨"video-001", "uploader-001", "Bengaluru Protest Live Footage",
    15000, .APPROVED, none, []⟩

/-- A rejected video record (price ₹12000). -/
def sampleRejectedVideo : Video :=
  ⟨"video-003", "uploader-002", "Mumbai Accident Raw Footage",
    12000, .REJECTED, some 1, []⟩

/-- An approved video priced at ₹12000, and a purchase record. -/
def sampleVideo12000 : Video :=
  ⟨"video-002", "uploader-002", "Mumbai Accident Raw Footage",
    12000, .APPROVED, some 3, []⟩

/-- A purchase record with expiry at instant 1000. -/
def samplePurchase : Purchase :=
  ⟨"purchase-001", "buyer-001", "buyer@channel.in", 1000⟩

/-- Feed counterexample posts: a fresh post with no engagement (age `0.01` s
at `now = 1000000`) and an old popular one (age `1000000` s). -/
def postFresh : PublicPost :=
  ⟨"post-fresh", "Fresh Clip", 0, 0, 0, 99999999 / 100⟩

/-- See `postFresh`. -/
def postPopular : PublicPost :=
  ⟨"post-popular", "Popular Clip", 10, 0, 0, 0⟩

/-- The two entries of `SAMPLE_POSTS` (feed.py lines 21–54), restricted to
the fields the embedding carries. -/
def samplePost1 : PublicPost :=
  ⟨"post-001", "Bengaluru Protest Escalates - Live Raw Footage", 12543, 2847,
    25086 / 100, 0⟩

/-- See `samplePost1`. -/
def samplePost2 : PublicPost :=
  ⟨"post-002", "Mumbai Highway Pileup - Citizen Footage", 8923, 1567,
    17846 / 100, 0⟩

/-! ## Helper lemmas -/

theorem abs_roundHalfEven_sub_le (x : ℚ) : |(roundHalfEven x : ℚ) - x| ≤ 1 / 2 := by
  have h0 : (⌊x⌋ : ℚ) ≤ x := Int.floor_le x
  have h1 : x < ⌊x⌋ + 1 := Int.lt_floor_add_one x
  unfold roundHalfEven
  split_ifs with a b c <;> rw [abs_le] <;> constructor <;> push_cast <;> linarith

theorem abs_quantize2_sub_le (x : ℚ) : |quantize2 x - x| ≤ 1 / 200 := by
  have h := abs_roundHalfEven_sub_le (100 * x)
  have hrw : quantize2 x - x = ((roundHalfEven (100 * x) : ℚ) - 100 * x) / 100 := by
    unfold quantize2; ring
  rw [hrw, abs_div, abs_of_pos (by norm_num : (0 : ℚ) < 100)]
  linarith

theorem roundHalfEven_nonpos {x : ℚ} (hx : x ≤ 0) : roundHalfEven x ≤ 0 := by
  have h0 : ⌊x⌋ ≤ 0 := by
    have := Int.floor_le_floor (α := ℚ) hx
    simpa using this
  have hfl : (⌊x⌋ : ℚ) ≤ x := Int.floor_le x
  unfold roundHalfEven
  split_ifs with a b c
  · exact h0
  · have hq : (⌊x⌋ : ℚ) < -1 / 2 := by linarith
    have : (⌊x⌋ : ℚ) < 0 := lt_trans hq (by norm_num)
    have hz : ⌊x⌋ < 0 := by exact_mod_cast this
    omega
  · exact h0
  · have hq : (⌊x⌋ : ℚ) ≤ -1 / 2 := by linarith
    have : (⌊x⌋ : ℚ) < 0 := lt_of_le_of_lt hq (by norm_num)
    have hz : ⌊x⌋ < 0 := by exact_mod_cast this
    omega

theorem quantize2_nonpos {x : ℚ} (hx : x ≤ 0) : quantize2 x ≤ 0 := by
  unfold quantize2
  have h : roundHalfEven (100 * x) ≤ 0 := roundHalfEven_nonpos (by linarith)
  have h' : ((roundHalfEven (100 * x) : ℤ) : ℚ) ≤ 0 := by exact_mod_cast h
  linarith

theorem quantize2_eq_sixty {x : ℚ} (h : |x - 60 / 100| ≤ 1 / 200) :
    quantize2 x = 60 / 100 := by
  rw [abs_le] at h
  have h1 : (119 : ℚ) / 2 ≤ 100 * x := by linarith
  have h2 : 100 * x ≤ (121 : ℚ) / 2 := by linarith
  have hs : roundHalfEven (100 * x) = 60 := by
    unfold roundHalfEven
    rcases lt_or_le (100 * x) 60 with hc | hc
    · have hf : ⌊(100 * x : ℚ)⌋ = 59 := by
        rw [Int.floor_eq_iff]
        constructor <;> push_cast <;> linarith
      rw [hf]
      split_ifs with a b c
      · push_cast at a; linarith
      · norm_num
      · exact absurd c (by decide)
      · norm_num
    · have hf : ⌊(100 * x : ℚ)⌋ = 60 := by
        rw [Int.floor_eq_iff]
        constructor <;> push_cast <;> linarith
      rw [hf]
      split_ifs with a b c
      · rfl
      · push_cast at b; linarith
      · rfl
      · exact absurd (by decide : (60 : ℤ) % 2 = 0) c
  unfold quantize2
  rw [hs]; norm_num

theorem ite_tf_eq_true {c : Prop} [Decidable c] : (if c then true else false) = true ↔ c := by
  by_cases h : c <;> simp [h]

theorem ite_tf_eq_false {c : Prop} [Decidable c] : (if c then true else false) = false ↔ ¬c := by
  by_cases h : c <;> simp [h]

/-! ## Claim C2 — royalty split arithmetic -/

/-- **C2 — counterexample.**  The claim quantifies over every price `p > 0`
and asserts `uploader_share / p` equals `0.60` to two decimal places.  At
`p = 0.01` the uploader share is `quantize2 0.006 = 0.01`, so the ratio is
`1`, which does not round to `0.60` at two decimal places. -/
theorem C2_counterexample :
    0 < (1 / 100 : ℚ) ∧
    (calculate_royalty_split (1 / 100)).uploader_share = 1 / 100 ∧
    quantize2 ((calculate_royalty_split (1 / 100)).uploader_share / (1 / 100)) ≠ 60 / 100 := by
  have h : (calculate_royalty_split (1 / 100)).uploader_share = 1 / 100 := by
    norm_num [calculate_royalty_split, ROYALTY_SPLIT_uploader, quantize2, roundHalfEven]
  refine ⟨by norm_num, h, ?_⟩
  rw [h]
  norm_num [quantize2, roundHalfEven]

/-- **C2 (amended).**  For every price `p > 0` the split computes
`uploader_share = quantize2 (p * 0.60)` and `platform_share =
quantize2 (p * 0.40)` — two-decimal rounding with ties to even, the
`Decimal.quantize` default — the shares sum to within `0.02` of `p`, and for
every `p ≥ 1` the ratio `uploader_share / p` rounds to `0.60` at two decimal
places (the original unrestricted ratio clause fails for small `p`, see the
counterexample). -/
theorem C2_royalty_split (p : ℚ) (hp : 0 < p) :
    (calculate_royalty_split p).uploader_share = quantize2 (p * (60 / 100)) ∧
    (calculate_royalty_split p).platform_share = quantize2 (p * (40 / 100)) ∧
    |(calculate_royalty_split p).uploader_share +
        (calculate_royalty_split p).platform_share - p| ≤ 2 / 100 ∧
    (1 ≤ p → quantize2 ((calculate_royalty_split p).uploader_share / p) = 60 / 100) := by
  have hp0 : p ≠ 0 := ne_of_gt hp
  have hu := abs_quantize2_sub_le (p * (60 / 100))
  have hv := abs_quantize2_sub_le (p * (40 / 100))
  refine ⟨rfl, rfl, ?_, ?_⟩
  · simp only [calculate_royalty_split, ROYALTY_SPLIT_uploader, ROYALTY_SPLIT_platform]
    rw [abs_le] at hu hv ⊢
    constructor <;> linarith
  · intro h1
    apply quantize2_eq_sixty
    have hkey : (calculate_royalty_split p).uploader_share / p - 60 / 100 =
        (quantize2 (p * (60 / 100)) - p * (60 / 100)) / p := by
      simp only [calculate_royalty_split, ROYALTY_SPLIT_uploader]
      rw [sub_div]
      congr 1
      rw [mul_comm p (60 / 100 : ℚ), mul_div_assoc, div_self hp0, mul_one]
    rw [hkey, abs_div, abs_of_pos hp, div_le_iff₀ hp]
    rw [abs_le] at hu
    rw [abs_le]
    constructor <;> nlinarith

/-- Witness for `C2_royalty_split` at the concrete price `p = 1`. -/
theorem C2_royalty_split_witness :
    0 < (1 : ℚ) ∧
    ((calculate_royalty_split 1).uploader_share = quantize2 (1 * (60 / 100)) ∧
      (calculate_royalty_split 1).platform_share = quantize2 (1 * (40 / 100)) ∧
      |(calculate_royalty_split 1).uploader_share +
          (calculate_royalty_split 1).platform_share - 1| ≤ 2 / 100 ∧
      (1 ≤ (1 : ℚ) → quantize2 ((calculate_royalty_split 1).uploader_share / 1) = 60 / 100)) :=
  ⟨by norm_num, C2_royalty_split 1 (by norm_num)⟩

/-! ## Claim C9 — no `InvalidAmount` validation -/

/-- **C9 — counterexample.**  The claim says `split(0)` and `split(-5)` fail
with `InvalidAmount` and produce no split result.  `calculate_royalty_split`
is a total function with no validation branch (payments.py lines 87–98): both
calls return a full split dictionary. -/
theorem C9_counterexample :
    (calculate_royalty_split 0).uploader_share = 0 ∧
    (calculate_royalty_split 0).platform_share = 0 ∧
    (calculate_royalty_split (-5)).uploader_share = -3 ∧
    (calculate_royalty_split (-5)).platform_share = -2 ∧
    (calculate_royalty_split (-5)).currency = "INR" := by
  refine ⟨?_, ?_, ?_, ?_, rfl⟩ <;>
    norm_num [calculate_royalty_split, ROYALTY_SPLIT_uploader, ROYALTY_SPLIT_platform,
      quantize2, roundHalfEven]

/-- **C9 (amended).**  `calculate_royalty_split` performs no input validation
and never fails: for every total `t ≤ 0` it still returns the rounded 60/40
split — nonpositive shares whose sum is within `0.01` of `t`. -/
theorem C9_no_validation (t : ℚ) (ht : t ≤ 0) :
    (calculate_royalty_split t).uploader_share = quantize2 (t * (60 / 100)) ∧
    (calculate_royalty_split t).uploader_share ≤ 0 ∧
    (calculate_royalty_split t).platform_share ≤ 0 ∧
    |(calculate_royalty_split t).uploader_share +
        (calculate_royalty_split t).platform_share - t| ≤ 1 / 100 := by
  have hu := abs_quantize2_sub_le (t * (60 / 100))
  have hv := abs_quantize2_sub_le (t * (40 / 100))
  refine ⟨rfl, ?_, ?_, ?_⟩
  · simp only [calculate_royalty_split, ROYALTY_SPLIT_uploader]
    exact quantize2_nonpos (by linarith)
  · simp only [calculate_royalty_split, ROYALTY_SPLIT_platform]
    exact quantize2_nonpos (by linarith)
  · simp only [calculate_royalty_split, ROYALTY_SPLIT_uploader, ROYALTY_SPLIT_platform]
    rw [abs_le] at hu hv ⊢
    constructor <;> linarith

/-- Witness for `C9_no_validation` at the concrete total `t = -5`. -/
theorem C9_no_validation_witness :
    (-5 : ℚ) ≤ 0 ∧
    ((calculate_royalty_split (-5)).uploader_share = quantize2 ((-5) * (60 / 100)) ∧
      (calculate_royalty_split (-5)).uploader_share ≤ 0 ∧
      (calculate_royalty_split (-5)).platform_share ≤ 0 ∧
      |(calculate_royalty_split (-5)).uploader_share +
          (calculate_royalty_split (-5)).platform_share - (-5)| ≤ 1 / 100) :=
  ⟨by norm_num, C9_no_validation (-5) (by norm_num)⟩

/-! ## Claim C8 — empty frame sequence -/

/-- **C8.**  For the empty sequence of frames, `analyze_video` returns the
`"No frames extracted"` failure dictionary with `approved = false`, for every
configured threshold: the gate never approves an upload with no frames. -/
theorem C8_no_frames (threshold : ℚ) :
    analyze_video threshold [] = .failed false "No frames extracted" ∧
    (analyze_video threshold []).approvedFlag = false := by
  constructor <;> rfl

/-! ## Claim C3 — moderation decision policy -/

/-- **C3 — counterexample.**  Two failures of the claim as stated.  First, the
claimed biconditional (reject iff max score over threshold, or a detection
over `0.7` that is *tagged as an explicit body-part category*) fails at one
frame of score `0.1` with a single detection of score `0.8` not tagged as an
explicit part: the source checks only `part.get('score', 0) > 0.7`, ignoring
the category, so it rejects while the claimed policy approves.  Second, at
frame scores `[0.1, 0.2, 0.9]` the reason is `"High nudity probability
detected"`, not the claimed `"high nudity probability detected"`. -/
theorem C3_counterexample :
    ¬ (((analyze_video (6 / 10)
          [⟨1 / 10, [⟨"FACE_FEMALE", false, 8 / 10⟩]⟩]).approvedFlag = false) ↔
        ((6 : ℚ) / 10 <
            listMax (([⟨1 / 10, [⟨"FACE_FEMALE", false, 8 / 10⟩]⟩] : List Frame).map
              Frame.score) ∨
          ∃ d ∈ ([⟨1 / 10, [⟨"FACE_FEMALE", false, 8 / 10⟩]⟩] : List Frame).flatMap
              Frame.parts,
            7 / 10 < d.score ∧ d.explicitPart = true)) ∧
    (analyze_video (6 / 10) [⟨1 / 10, []⟩, ⟨2 / 10, []⟩, ⟨9 / 10, []⟩]).reasonText ≠
      "high nudity probability detected" := by
  constructor
  · intro hIff
    have hL : (analyze_video (6 / 10)
        [⟨1 / 10, [⟨"FACE_FEMALE", false, 8 / 10⟩]⟩]).approvedFlag = false := by
      norm_num [analyze_video, listMax, ModerationResult.approvedFlag, List.flatMap]
    rcases hIff.mp hL with hmax | ⟨d, hd, hs, he⟩
    · norm_num [listMax] at hmax
    · simp only [List.flatMap] at hd
      simp at hd
      rw [hd] at he
      simp at he
  · have hr : (analyze_video (6 / 10)
        [⟨1 / 10, []⟩, ⟨2 / 10, []⟩, ⟨9 / 10, []⟩]).reasonText =
        "High nudity probability detected" := by
      norm_num [analyze_video, listMax, ModerationResult.reasonText,
        get_rejection_reason, max_def]
    rw [hr]
    decide

/-- **C3 (amended).**  For every threshold and non-empty frame sequence,
`analyze_video` rejects iff the maximum frame score exceeds the threshold or
*any* object-level detection has score above `0.7` — the explicit-body-part
tag of a detection is never consulted.  At the default threshold `0.6`, frame
scores `[0.1, 0.2, 0.9]` with no detections give `approved = false`,
`max = 0.9`, `mean = 0.4` and reason `"High nudity probability detected"`
(with a capital H), and `[0.1, 0.2, 0.3]` gives `approved = true`. -/
theorem C3_moderation_decision (threshold : ℚ) (frames : List Frame)
    (h : frames ≠ []) :
    ((analyze_video threshold frames).approvedFlag = false ↔
      (threshold < listMax (frames.map Frame.score) ∨
        ∃ d ∈ frames.flatMap Frame.parts, 7 / 10 < d.score)) ∧
    analyze_video (6 / 10) [⟨1 / 10, []⟩, ⟨2 / 10, []⟩, ⟨9 / 10, []⟩] =
      .report false (9 / 10) (4 / 10) 3 true false "High nudity probability detected" ∧
    (analyze_video (6 / 10) [⟨1 / 10, []⟩, ⟨2 / 10, []⟩, ⟨3 / 10, []⟩]).approvedFlag =
      true := by
  refine ⟨?_, ?_, ?_⟩
  · obtain ⟨f, fs, rfl⟩ := List.exists_cons_of_ne_nil h
    simp only [analyze_video, List.isEmpty_cons, Bool.false_eq_true, if_false,
      ModerationResult.approvedFlag, Bool.not_eq_false', Bool.or_eq_true,
      ite_tf_eq_true, List.any_eq_true, gt_iff_lt]
  · norm_num [analyze_video, listMax, get_rejection_reason, max_def]
  · norm_num [analyze_video, listMax, ModerationResult.approvedFlag, max_def]

/-- Witness for `C3_moderation_decision` at the one-frame input of score
`0.9`. -/
theorem C3_moderation_decision_witness :
    ([⟨9 / 10, []⟩] : List Frame) ≠ [] ∧
    (((analyze_video (6 / 10) [⟨9 / 10, []⟩]).approvedFlag = false ↔
        ((6 : ℚ) / 10 < listMax (([⟨9 / 10, []⟩] : List Frame).map Frame.score) ∨
          ∃ d ∈ ([⟨9 / 10, []⟩] : List Frame).flatMap Frame.parts, 7 / 10 < d.score)) ∧
      analyze_video (6 / 10) [⟨1 / 10, []⟩, ⟨2 / 10, []⟩, ⟨9 / 10, []⟩] =
        .report false (9 / 10) (4 / 10) 3 true false "High nudity probability detected" ∧
      (analyze_video (6 / 10) [⟨1 / 10, []⟩, ⟨2 / 10, []⟩, ⟨3 / 10, []⟩]).approvedFlag =
        true) :=
  ⟨by simp, C3_moderation_decision (6 / 10) [⟨9 / 10, []⟩] (by simp)⟩

/-! ## Claims C1 and C7 — admin verification transition -/

/-- The persisted effect of `db.admin_verify_video` on the looked-up video:
the record found for `video_id` afterwards carries the new status encoded by
`b`, the rating and the categories. -/
theorem get_video_by_id_admin_verify (video_id : String) (rating : ℤ)
    (categories : List String) (b : Bool) :
    ∀ (store : List Video) (v : Video),
      get_video_by_id store video_id = some v →
      get_video_by_id (admin_verify_video store video_id rating categories b)
          video_id =
        some { v with
          status := if b then VideoStatus.APPROVED else VideoStatus.REJECTED
          rating := some rating
          categories := categories }
  | [], v => fun h => by simp [get_video_by_id] at h
  | w :: rest, v => fun h => by
    unfold get_video_by_id at h ⊢
    unfold admin_verify_video
    rw [List.map_cons]
    by_cases hw : w.id = video_id
    · rw [List.find?_cons_of_pos _ (by simp [hw])] at h
      injection h with h2
      subst h2
      rw [if_pos hw]
      exact List.find?_cons_of_pos _ (by simp [hw])
    · rw [List.find?_cons_of_neg _ (by simp [hw])] at h
      rw [if_neg hw, List.find?_cons_of_neg _ (by simp [hw])]
      have hrec := get_video_by_id_admin_verify video_id rating categories b rest v h
      unfold get_video_by_id admin_verify_video at hrec
      exact hrec

/-- **C1.**  The `verify_video` transition on a `PENDING` video with rating in
`[1, 5]` sets the stored video's status to `APPROVED` exactly when
`approved = true` and `rating ≥ 3`, and to `REJECTED` in every other case —
but the quick-reject route does *not* reach this decision: `reject_video`
calls `verify_video(video_id, {...})` with a second positional argument,
Python raises `TypeError`, and the handler answers `"Reject failed"` leaving
the pending video untouched (instead of transitioning it to `REJECTED` with
the claimed quick-reject reasons {nudity, quality_issue, irrelevant,
duplicate}). -/
theorem C1_verify_decision :
    (∀ (store : List Video) (video_id : String) (v : Video) (rating : ℤ)
        (approved : Bool) (categories : List String),
      get_video_by_id store video_id = some v →
      v.status = VideoStatus.PENDING →
      1 ≤ rating → rating ≤ 5 →
      ((approved = true ∧ 3 ≤ rating) →
        get_video_by_id (verify_video store video_id rating approved categories).1
            video_id =
          some { v with
            status := VideoStatus.APPROVED
            rating := some rating
            categories := categories } ∧
        (verify_video store video_id rating approved categories).2 =
          .ok video_id VideoStatus.APPROVED rating) ∧
      (¬(approved = true ∧ 3 ≤ rating) →
        get_video_by_id (verify_video store video_id rating approved categories).1
            video_id =
          some { v with
            status := VideoStatus.REJECTED
            rating := some rating
            categories := categories } ∧
        (verify_video store video_id rating approved categories).2 =
          .ok video_id VideoStatus.REJECTED rating)) ∧
    reject_video [samplePendingVideo] "video-001" "nudity" =
      ([samplePendingVideo], .error "Reject failed") ∧
    samplePendingVideo.status = VideoStatus.PENDING := by
  refine ⟨?_, rfl, rfl⟩
  intro store video_id v rating approved categories hf hp h1 h5
  have hcond : ¬(rating < 1 ∨ rating > 5) := by omega
  constructor
  · intro hd
    have hgoal := get_video_by_id_admin_verify video_id rating categories true store v hf
    unfold verify_video
    rw [if_neg hcond, hf]
    dsimp only
    rw [if_neg (by simp [hp]), if_pos (by exact ⟨hd.1, hd.2⟩)]
    refine ⟨?_, rfl⟩
    simpa using hgoal
  · intro hd
    have hgoal := get_video_by_id_admin_verify video_id rating categories false store v hf
    unfold verify_video
    rw [if_neg hcond, hf]
    dsimp only
    rw [if_neg (by simp [hp]), if_neg (by exact fun hx => hd ⟨hx.1, hx.2⟩)]
    refine ⟨?_, rfl⟩
    simpa using hgoal

/-- Witness for `C1_verify_decision` on the concrete pending store, rating 5,
`approved = true`. -/
theorem C1_verify_decision_witness :
    get_video_by_id [samplePendingVideo] "video-001" = some samplePendingVideo ∧
    samplePendingVideo.status = VideoStatus.PENDING ∧
    (1 : ℤ) ≤ 5 ∧ (5 : ℤ) ≤ 5 ∧ (true = true ∧ (3 : ℤ) ≤ 5) ∧
    get_video_by_id (verify_video [samplePendingVideo] "video-001" 5 true []).1
        "video-001" =
      some { samplePendingVideo with
        status := VideoStatus.APPROVED
        rating := some 5
        categories := ([] : List String) } ∧
    (verify_video [samplePendingVideo] "video-001" 5 true []).2 =
      .ok "video-001" VideoStatus.APPROVED 5 :=
  have happ := (C1_verify_decision.1 [samplePendingVideo] "video-001"
    samplePendingVideo 5 true [] rfl rfl (by norm_num) (by norm_num)).1
    ⟨rfl, by norm_num⟩
  ⟨rfl, rfl, by norm_num, by norm_num, ⟨rfl, by norm_num⟩, happ.1, happ.2⟩

/-- **C7.**  `verify_video` rejects a rating outside `[1, 5]` with
`"Rating must be 1-5"` before touching the store, and rejects a video that is
not `PENDING` with `"Video already processed"`; in both cases the returned
store is exactly the input store — no video field is mutated. -/
theorem C7_verification_guards :
    (∀ (store : List Video) (video_id : String) (rating : ℤ) (approved : Bool)
        (categories : List String),
      (rating < 1 ∨ rating > 5) →
      verify_video store video_id rating approved categories =
        (store, .error "Rating must be 1-5")) ∧
    (∀ (store : List Video) (video_id : String) (v : Video) (rating : ℤ)
        (approved : Bool) (categories : List String),
      ¬(rating < 1 ∨ rating > 5) →
      get_video_by_id store video_id = some v →
      v.status ≠ VideoStatus.PENDING →
      verify_video store video_id rating approved categories =
        (store, .error "Video already processed")) := by
  constructor
  · intro store video_id rating approved categories hbad
    unfold verify_video
    rw [if_pos hbad]
  · intro store video_id v rating approved categories hok hf hstat
    unfold verify_video
    rw [if_neg hok, hf]
    dsimp only
    rw [if_pos hstat]

/-- Witness for `C7_verification_guards`: rating `0` on an empty store, and a
valid rating `3` on an already-approved video. -/
theorem C7_verification_guards_witness :
    ((0 : ℤ) < 1 ∨ (0 : ℤ) > 5) ∧
    verify_video [] "video-001" 0 true [] = ([], .error "Rating must be 1-5") ∧
    ¬((3 : ℤ) < 1 ∨ (3 : ℤ) > 5) ∧
    get_video_by_id [sampleApprovedVideo] "video-001" = some sampleApprovedVideo ∧
    sampleApprovedVideo.status ≠ VideoStatus.PENDING ∧
    verify_video [sampleApprovedVideo] "video-001" 3 true [] =
      ([sampleApprovedVideo], .error "Video already processed") :=
  ⟨by norm_num,
    C7_verification_guards.1 [] "video-001" 0 true [] (by norm_num),
    by norm_num, rfl, by simp [sampleApprovedVideo],
    C7_verification_guards.2 [sampleApprovedVideo] "video-001" sampleApprovedVideo 3
      true [] (by norm_num) rfl (by simp [sampleApprovedVideo])⟩

/-! ## Claims C4 and C5 — purchase flow and license expiry -/

/-- **C4 — counterexample.**  The claim requires the purchase of an `APPROVED`
video to fail with `AmountMismatch` whenever the paid amount differs from the
video's price.  The flow has no such check: `buy_video` takes no paid amount
(on an approved ₹12000 video it answers `"Payment initiation failed"`, the
`TypeError` of its checkout call), and the settlement webhook confirms a
completed session of ₹5000 — an amount different from the ₹12000 price —
with `"payment_confirmed"` instead of any amount-mismatch failure. -/
theorem C4_counterexample :
    sampleVideo12000.status = VideoStatus.APPROVED ∧
    sampleVideo12000.price = 12000 ∧
    buy_video (some sampleVideo12000) (some "buyer@channel.in") =
      .error "Payment initiation failed" ∧
    process_payment_webhook 0 (.completed ⟨"video-002", "buyer@channel.in", 500000⟩) =
      .confirmed ⟨"payment_confirmed", "video-002", "buyer@channel.in", 5000,
        calculate_royalty_split 5000, 7776000⟩ ∧
    (5000 : ℚ) ≠ sampleVideo12000.price := by
  refine ⟨rfl, rfl, rfl, ?_, by norm_num [sampleVideo12000]⟩
  norm_num [process_payment_webhook]

/-- **C4 (amended).**  `buy_video` fails with
`"Video not available for purchase"` when the video is missing or its status
is not `APPROVED` (and, being a pure response, mutates nothing); the flow has
no paid-amount parameter and no `AmountMismatch` guard — the settlement
webhook confirms every completed session at whatever `amount_total` it
carries, never consulting a video price. -/
theorem C4_purchase_guard :
    (∀ email : String,
      buy_video none (some email) = .error "Video not available for purchase") ∧
    (∀ (v : Video) (email : String), v.status ≠ VideoStatus.APPROVED →
      buy_video (some v) (some email) = .error "Video not available for purchase") ∧
    (∀ (now : ℤ) (s : WebhookSession),
      process_payment_webhook now (.completed s) =
        .confirmed ⟨"payment_confirmed", s.video_id, s.customer_email,
          (s.amount_total : ℚ) / 100,
          calculate_royalty_split ((s.amount_total : ℚ) / 100),
          now + 90 * 86400⟩) := by
  refine ⟨fun email => rfl, ?_, fun now s => rfl⟩
  intro v email hv
  unfold buy_video
  dsimp only
  rw [if_pos hv]

/-- Witness for `C4_purchase_guard` on the concrete rejected video. -/
theorem C4_purchase_guard_witness :
    sampleRejectedVideo.status ≠ VideoStatus.APPROVED ∧
    buy_video (some sampleRejectedVideo) (some "buyer@channel.in") =
      .error "Video not available for purchase" :=
  ⟨by simp [sampleRejectedVideo],
    C4_purchase_guard.2.1 sampleRejectedVideo "buyer@channel.in"
      (by simp [sampleRejectedVideo])⟩

/-- **C5.**  A purchase settled by the webhook at instant `now` carries
`license_expiry = now + 90 * 86400` — exactly 90 days; `download_license` by
the owning buyer is denied with `"License expired"` strictly after the expiry
instant and grants the signed URL at or before it. -/
theorem C5_license_expiry :
    (∀ (now : ℤ) (s : WebhookSession) (r : PaymentResult),
      process_payment_webhook now (.completed s) = .confirmed r →
      r.license_expiry = now + 90 * 86400) ∧
    (∀ (p : Purchase) (buyer : String) (at_time : ℤ),
      p.buyer_id = buyer → p.expiry_date < at_time →
      download_license (some p) buyer at_time = .error "License expired") ∧
    (∀ (p : Purchase) (buyer : String) (at_time : ℤ),
      p.buyer_id = buyer → at_time ≤ p.expiry_date →
      download_license (some p) buyer at_time =
        .ok ("https://s3.newshub.in/licenses/" ++ p.id ++ "?token=" ++ p.id ++
          "&expires=90days")) := by
  refine ⟨?_, ?_, ?_⟩
  · intro now s r h
    simp only [process_payment_webhook, WebhookResponse.confirmed.injEq] at h
    subst h
    rfl
  · intro p buyer at_time hb ht
    unfold download_license
    dsimp only
    rw [if_neg (by simp [hb]), if_pos ht]
  · intro p buyer at_time hb ht
    unfold download_license
    dsimp only
    rw [if_neg (by simp [hb]), if_neg (by omega)]

/-- Witness for `C5_license_expiry`: a settlement at instant 100, and access
checks on `samplePurchase` (expiry 1000) at instants 1001 and 1000. -/
theorem C5_license_expiry_witness :
    process_payment_webhook 100 (.completed ⟨"video-001", "buyer@channel.in", 1500000⟩) =
      .confirmed ⟨"payment_confirmed", "video-001", "buyer@channel.in",
        (1500000 : ℚ) / 100, calculate_royalty_split ((1500000 : ℚ) / 100),
        100 + 90 * 86400⟩ ∧
    (⟨"payment_confirmed", "video-001", "buyer@channel.in", (1500000 : ℚ) / 100,
        calculate_royalty_split ((1500000 : ℚ) / 100), 100 + 90 * 86400⟩ :
      PaymentResult).license_expiry = 100 + 90 * 86400 ∧
    samplePurchase.buyer_id = "buyer-001" ∧
    samplePurchase.expiry_date < 1001 ∧
    download_license (some samplePurchase) "buyer-001" 1001 = .error "License expired" ∧
    (1000 : ℤ) ≤ samplePurchase.expiry_date ∧
    download_license (some samplePurchase) "buyer-001" 1000 =
      .ok ("https://s3.newshub.in/licenses/" ++ samplePurchase.id ++ "?token=" ++
        samplePurchase.id ++ "&expires=90days") :=
  ⟨rfl,
    C5_license_expiry.1 100 ⟨"video-001", "buyer@channel.in", 1500000⟩
      ⟨"payment_confirmed", "video-001", "buyer@channel.in", (1500000 : ℚ) / 100,
        calculate_royalty_split ((1500000 : ℚ) / 100), 100 + 90 * 86400⟩ rfl,
    rfl, by norm_num [samplePurchase],
    C5_license_expiry.2.1 samplePurchase "buyer-001" 1001 rfl
      (by norm_num [samplePurchase]),
    by norm_num [samplePurchase],
    C5_license_expiry.2.2 samplePurchase "buyer-001" 1000 rfl
      (by norm_num [samplePurchase])⟩

/-! ## Claim C6 — feed ranking

Stability of the embedded sort, stated through filters: for every score value,
the posts attaining it keep their original relative order. -/

theorem filter_orderedInsert_pos (now s : ℚ) (x : PublicPost)
    (hx : trendingScore now x = s) :
    ∀ l : List PublicPost,
      (l.orderedInsert (fun a b => trendingScore now b ≤ trendingScore now a) x).filter
          (fun p => decide (trendingScore now p = s)) =
        x :: l.filter (fun p => decide (trendingScore now p = s))
  | [] => by simp [hx]
  | y :: ys => by
    rw [List.orderedInsert]
    by_cases h : trendingScore now y ≤ trendingScore now x
    · rw [if_pos h]
      simp [List.filter_cons, hx]
    · rw [if_neg h]
      have hy : ¬ trendingScore now y = s := fun he => h (le_of_eq (hx ▸ he))
      simp only [List.filter_cons, decide_eq_true_eq, if_neg hy]
      exact filter_orderedInsert_pos now s x hx ys

theorem filter_orderedInsert_neg (now s : ℚ) (x : PublicPost)
    (hx : ¬ trendingScore now x = s) :
    ∀ l : List PublicPost,
      (l.orderedInsert (fun a b => trendingScore now b ≤ trendingScore now a) x).filter
          (fun p => decide (trendingScore now p = s)) =
        l.filter (fun p => decide (trendingScore now p = s))
  | [] => by simp [hx]
  | y :: ys => by
    rw [List.orderedInsert]
    by_cases h : trendingScore now y ≤ trendingScore now x
    · rw [if_pos h]
      simp [List.filter_cons, hx]
    · rw [if_neg h]
      by_cases hy : trendingScore now y = s
      · simp only [List.filter_cons, decide_eq_true_eq, if_pos hy]
        rw [filter_orderedInsert_neg now s x hx ys]
      · simp only [List.filter_cons, decide_eq_true_eq, if_neg hy]
        exact filter_orderedInsert_neg now s x hx ys

theorem filter_insertionSort (now s : ℚ) :
    ∀ posts : List PublicPost,
      (posts.insertionSort (fun a b => trendingScore now b ≤ trendingScore now a)).filter
          (fun p => decide (trendingScore now p = s)) =
        posts.filter (fun p => decide (trendingScore now p = s))
  | [] => rfl
  | x :: xs => by
    rw [List.insertionSort]
    by_cases hx : trendingScore now x = s
    · rw [filter_orderedInsert_pos now s x hx, filter_insertionSort now s xs]
      simp [List.filter_cons, hx]
    · rw [filter_orderedInsert_neg now s x hx, filter_insertionSort now s xs]
      simp [List.filter_cons, hx]

/-- **C6 — counterexample.**  The claimed score uses
`recencyFactor = 1 / (age + 1)`, "always in (0, 1]".  The source computes
`(1 / age + 1) * 0.1` — it divides by the bare age and then adds one — so its
recency factor at age 1 is `2`, outside `(0, 1]`, and the two formulas order
posts differently: a fresh empty post beats an old ten-view post under the
source's score, while the spec-modelled score ranks the popular post first. -/
theorem C6_counterexample :
    rank 1000000 [postFresh, postPopular] = [postFresh, postPopular] ∧
    specRank 1000000 [postFresh, postPopular] = [postPopular, postFresh] ∧
    rank 1000000 [postFresh, postPopular] ≠ specRank 1000000 [postFresh, postPopular] ∧
    recencyFactor 1 = 2 ∧ ¬ recencyFactor 1 ≤ 1 := by
  have h1 : rank 1000000 [postFresh, postPopular] = [postFresh, postPopular] := by
    norm_num [rank, List.insertionSort, List.orderedInsert, trendingScore,
      recencyFactor, postFresh, postPopular]
  have h2 : specRank 1000000 [postFresh, postPopular] = [postPopular, postFresh] := by
    norm_num [specRank, List.insertionSort, List.orderedInsert, specTrendingScore,
      postFresh, postPopular]
  refine ⟨h1, h2, ?_, by norm_num [recencyFactor], by norm_num [recencyFactor]⟩
  rw [h1, h2]
  simp [postFresh, postPopular]

/-- **C6 (amended).**  `rank` is a stable descending sort by the source's
score `views * 0.6 + likes * 0.3 + (1 / age + 1) * 0.1`: its output is a
permutation of the input (no post is mutated), is sorted descending by the
score, and posts of equal score keep their original relative order; the
source's recency factor `1 / age + 1` is strictly decreasing in the age and
lies in `(1, ∞)` — not `(0, 1]` — for every positive age. -/
theorem C6_feed_ranking :
    (∀ (now : ℚ) (posts : List PublicPost),
      (rank now posts).Perm posts ∧
      List.Sorted (fun a b => trendingScore now b ≤ trendingScore now a)
        (rank now posts)) ∧
    (∀ (now s : ℚ) (posts : List PublicPost),
      (rank now posts).filter (fun p => decide (trendingScore now p = s)) =
        posts.filter (fun p => decide (trendingScore now p = s))) ∧
    (∀ a b : ℚ, 0 < a → a < b → recencyFactor b < recencyFactor a) ∧
    (∀ a : ℚ, 0 < a → 1 < recencyFactor a) := by
  refine ⟨?_, ?_, ?_, ?_⟩
  · intro now posts
    constructor
    · exact List.perm_insertionSort _ posts
    · haveI ht : IsTotal PublicPost
          (fun a b => trendingScore now b ≤ trendingScore now a) :=
        ⟨fun a b => le_total _ _⟩
      haveI htr : IsTrans PublicPost
          (fun a b => trendingScore now b ≤ trendingScore now a) :=
        ⟨fun a b c h1 h2 => le_trans h2 h1⟩
      exact List.sorted_insertionSort _ posts
  · intro now s posts
    exact filter_insertionSort now s posts
  · intro a b ha hab
    have hb : 0 < b := lt_trans ha hab
    unfold recencyFactor
    have h : 1 / b < 1 / a := by
      rw [div_lt_div_iff₀ hb ha]
      nlinarith
    linarith
  · intro a ha
    unfold recencyFactor
    have h : 0 < 1 / a := by positivity
    linarith

/-- Witness for `C6_feed_ranking` at ages 1 and 2. -/
theorem C6_feed_ranking_witness :
    0 < (1 : ℚ) ∧ (1 : ℚ) < 2 ∧
    recencyFactor 2 < recencyFactor 1 ∧ 1 < recencyFactor 1 :=
  ⟨by norm_num, by norm_num,
    C6_feed_ranking.2.2.1 1 2 (by norm_num) (by norm_num),
    C6_feed_ranking.2.2.2 1 (by norm_num)⟩

/-! ## Claim C10 — view counter increment -/

theorem find?_id_of_first_match (post_id : String) (p : PublicPost)
    (hp : p.id = post_id) (post : List PublicPost) :
    ∀ pre : List PublicPost, (∀ q ∈ pre, q.id ≠ post_id) →
      (pre ++ p :: post).find? (fun q => q.id = post_id) = some p
  | [] => fun _ => by
    rw [List.nil_append]
    exact List.find?_cons_of_pos _ (by simp [hp])
  | q :: pre => fun h => by
    rw [List.cons_append,
      List.find?_cons_of_neg _ (by simp [h q (List.mem_cons_self q pre)])]
    exact find?_id_of_first_match post_id p hp post pre
      fun r hr => h r (List.mem_cons_of_mem q hr)

theorem bumpFirstView_of_first_match (post_id : String) (p : PublicPost)
    (hp : p.id = post_id) (post : List PublicPost) :
    ∀ pre : List PublicPost, (∀ q ∈ pre, q.id ≠ post_id) →
      bumpFirstView (pre ++ p :: post) post_id =
        pre ++ { p with views := p.views + 1 } :: post
  | [] => fun _ => by
    rw [List.nil_append, bumpFirstView, if_pos hp, List.nil_append]
  | q :: pre => fun h => by
    rw [List.cons_append, bumpFirstView,
      if_neg (h q (List.mem_cons_self q pre)), List.cons_append]
    exact congrArg (q :: ·)
      (bumpFirstView_of_first_match post_id p hp post pre
        fun r hr => h r (List.mem_cons_of_mem q hr))

/-- **C10.**  `record_view` increments the views counter of the first (hence,
under unique ids, the only) matching post by exactly one, leaving its other
fields and every other post unchanged, and reports success with the post's new
view count; when no post matches, the state is returned unchanged and the
response still reports success with `new_views = 0`. -/
theorem C10_record_view :
    (∀ (pre post : List PublicPost) (p : PublicPost) (post_id : String),
      (∀ q ∈ pre, q.id ≠ post_id) → p.id = post_id →
      record_view (pre ++ p :: post) post_id =
        (pre ++ { p with views := p.views + 1 } :: post,
          ⟨true, post_id, p.views + 1, 1⟩)) ∧
    (∀ (posts : List PublicPost) (post_id : String),
      (∀ q ∈ posts, q.id ≠ post_id) →
      record_view posts post_id = (posts, ⟨true, post_id, 0, 1⟩)) := by
  constructor
  · intro pre post p post_id hpre hp
    unfold record_view
    rw [find?_id_of_first_match post_id p hp post pre hpre]
    dsimp only
    rw [bumpFirstView_of_first_match post_id p hp post pre hpre]
  · intro posts post_id hnone
    unfold record_view
    rw [List.find?_eq_none.mpr fun x hx => by simp [hnone x hx]]

/-- Witness for `C10_record_view`: a matched view on `post-002` behind
`post-001`, and an unmatched id on the same store. -/
theorem C10_record_view_witness :
    (∀ q ∈ [samplePost1], q.id ≠ "post-002") ∧
    samplePost2.id = "post-002" ∧
    record_view [samplePost1, samplePost2] "post-002" =
      ([samplePost1, { samplePost2 with views := samplePost2.views + 1 }],
        ⟨true, "post-002", samplePost2.views + 1, 1⟩) ∧
    (∀ q ∈ [samplePost1, samplePost2], q.id ≠ "post-404") ∧
    record_view [samplePost1, samplePost2] "post-404" =
      ([samplePost1, samplePost2], ⟨true, "post-404", 0, 1⟩) :=
  ⟨by simp [samplePost1], rfl,
    C10_record_view.1 [samplePost1] [] samplePost2 "post-002"
      (by simp [samplePost1]) rfl,
    by simp [samplePost1, samplePost2],
    C10_record_view.2 [samplePost1, samplePost2] "post-404"
      (by simp [samplePost1, samplePost2])⟩

end NewsHub
